import Mathlib

/-!
Verification development for the map-compare benchmark harness.

The JavaScript sources are shallowly embedded over exact rationals:
every JS number is modelled as a rational (ℚ), `Math.round` as
floor-of-plus-half, and the ambient `Math.random()` stream as an explicit
function argument `rng : ℕ → ℚ` whose values are the successive draws.
`Math.sqrt`, `Math.cos` and `Math.sin` are transcendental, so functions
using them are parametrised by an arbitrary interpretation of those
operations; none of the verified properties depend on their values.
-/

namespace MapCompare

/-- Model of the JS runtime `Math.round`: round half toward positive
infinity, as a rational-valued operation. -/
def jsRound (q : ℚ) : ℚ := (⌊q + 1/2⌋ : ℤ)

/-- Model of the source pattern `Math.round(x * 100) / 100` (round to two
decimal places). -/
def jsRound2 (q : ℚ) : ℚ := jsRound (q * 100) / 100

/-- Model of `Math.min(...values)` over a spread array; the empty case is
unreachable at every call site (the sources only apply it to lists of at
least 10, respectively at least 1, elements). -/
def jsMin : List ℚ → ℚ
  | [] => 0
  | x :: xs => xs.foldl min x

/-- Model of `Math.max(...values)` over a spread array; empty case
unreachable as for `jsMin`. -/
def jsMax : List ℚ → ℚ
  | [] => 0
  | x :: xs => xs.foldl max x

/-- Model of `array.sort((a, b) => a - b)`: sort ascending.  The JS engine
sort and insertion sort agree on lists of plain numbers (the sorted
sequence of values of a multiset is unique). -/
def jsSortAsc (l : List ℚ) : List ℚ := List.insertionSort (· ≤ ·) l

/-- Model of `arr.reduce((a, b) => a + b, 0)`. -/
def listSum (l : List ℚ) : ℚ := l.foldl (· + ·) 0

/-- Arithmetic mean as computed in the source: `sum / length`. -/
def mean (l : List ℚ) : ℚ := listSum l / (l.length : ℚ)

/-!
Embedding of `src/data/fake-data.js`.

`getPoints` is declared there as `getPoints(count = 1000)` and draws every
coordinate from the ambient `Math.random()`.  It has NO seed parameter:
the extra `BENCHMARK_SEED` argument passed by `runBenchmark` in
benchmark.js is silently discarded by JavaScript.  The ambient random
stream is made explicit here as `rng : ℕ → ℚ`, applied at consecutive
indices in the order `Math.random()` is called by the source (four draws
per point: lng, lat, magnitude, category). -/

/-- NYC_CENTER.lng from fake-data.js. -/
def NYC_LNG : ℚ := -74.0060

/-- NYC_CENTER.lat from fake-data.js. -/
def NYC_LAT : ℚ := 40.7128

/-- SPREAD constant from fake-data.js. -/
def SPREAD : ℚ := 0.12

/-- Body of `randomInRange(min, max)` with the `Math.random()` draw `r`
made explicit: `r * (max - min) + min`. -/
def randomInRange (r lo hi : ℚ) : ℚ := r * (hi - lo) + lo

/-- The category table `['restaurant', 'shop', 'park', 'office']`. -/
def pointCategories : List String := ["restaurant", "shop", "park", "office"]

/-- Non-geometry properties of one generated point feature. -/
structure PointProps where
  id : ℕ
  name : String
  magnitude : ℚ
  category : String
deriving DecidableEq

/-- One GeoJSON point feature: properties plus `[lng, lat]` coordinates. -/
structure Feature where
  props : PointProps
  coords : ℚ × ℚ
deriving DecidableEq

/-- Embedding of `getPoints(count)` from fake-data.js.  `rng` is the
ambient `Math.random()` stream; point `i` consumes draws `4*i .. 4*i+3`.
Note that the function is a function of `count` and of the ambient
nondeterministic stream only — the source declares no seed parameter. -/
def getPoints (count : ℕ) (rng : ℕ → ℚ) : List Feature :=
  (List.range count).map (fun i =>
    { props :=
        { id := i
          name := "Point " ++ toString i
          magnitude := randomInRange (rng (4*i+2)) 1 10
          category := (pointCategories.getD (⌊rng (4*i+3) * 4⌋).toNat "undefined") }
      coords :=
        (NYC_LNG + randomInRange (rng (4*i)) (-SPREAD) SPREAD,
         NYC_LAT + randomInRange (rng (4*i+1)) (-SPREAD) SPREAD) })

/-- The `BENCHMARK_SEED` constant of benchmark.js (the fixed seed that
`runBenchmark` passes to `getPoints`). -/
def BENCHMARK_SEED : ℕ := 42

/-- Embedding of the `runBenchmark` call site
`pointDataCache[count] = getPoints(count, BENCHMARK_SEED)`: JavaScript
drops the second argument because `getPoints` declares only `count`, so
the cached data is `getPoints count rng` for whatever ambient stream
`rng` the platform provides; the seed value never enters the result. -/
def benchmarkPointData (count : ℕ) (_seed : ℕ) (rng : ℕ → ℚ) : List Feature :=
  getPoints count rng

/-!
Embedding of `calculateMetrics` (benchmark.js, frame-time version).
-/

/-- The per-iteration metrics record returned by `calculateMetrics`.  The
degenerate branch of the source omits the `medianFps` field, hence the
`Option`. -/
structure Metrics where
  avgFps : ℚ
  minFps : ℚ
  maxFps : ℚ
  medianFps : Option ℚ
  avgFrameTime : ℚ
  jitter : ℚ
  outliersExcluded : ℕ
deriving DecidableEq

/-- The degenerate zero-metric result returned when fewer than 10 raw
samples were collected. -/
def zeroMetrics : Metrics :=
  { avgFps := 0, minFps := 0, maxFps := 0, medianFps := none
    avgFrameTime := 0, jitter := 0, outliersExcluded := 0 }

/-- Index `Math.floor(len * 0.25)`; exact since 0.25 is a dyadic float and
the product is an exact float for any list length. -/
def q1Index (len : ℕ) : ℕ := len / 4

/-- Index `Math.floor(len * 0.75)`, exact as for `q1Index`. -/
def q3Index (len : ℕ) : ℕ := 3 * len / 4

/-- Lower IQR bound `q1 - 1.5 * iqr` computed from the sorted samples. -/
def iqrLowerBound (frameTimes : List ℚ) : ℚ :=
  let sorted := jsSortAsc frameTimes
  let q1 := sorted.getD (q1Index sorted.length) 0
  let q3 := sorted.getD (q3Index sorted.length) 0
  q1 - 3/2 * (q3 - q1)

/-- Upper IQR bound `q3 + 1.5 * iqr` computed from the sorted samples. -/
def iqrUpperBound (frameTimes : List ℚ) : ℚ :=
  let sorted := jsSortAsc frameTimes
  let q1 := sorted.getD (q1Index sorted.length) 0
  let q3 := sorted.getD (q3Index sorted.length) 0
  q3 + 3/2 * (q3 - q1)

/-- The filter step `frameTimes.filter(t => t >= lowerBound && t <= upperBound)`. -/
def iqrFiltered (frameTimes : List ℚ) : List ℚ :=
  frameTimes.filter (fun t => iqrLowerBound frameTimes ≤ t ∧ t ≤ iqrUpperBound frameTimes)

/-- The sample set the statistics are computed on: the IQR-filtered list,
or — when the filter would leave fewer than 10 samples — the full
unfiltered list (`filtered = [...frameTimes]`, a replacement, not an
append). -/
def statsSamples (frameTimes : List ℚ) : List ℚ :=
  if (iqrFiltered frameTimes).length < 10 then frameTimes else iqrFiltered frameTimes

/-- Median of a list computed as in the source: sort ascending, average
the two middle values for even length, middle value for odd length. -/
def jsMedian (l : List ℚ) : ℚ :=
  let s := jsSortAsc l
  if s.length % 2 = 0 then (s.getD (s.length / 2 - 1) 0 + s.getD (s.length / 2) 0) / 2
  else s.getD (s.length / 2) 0

/-- Embedding of `calculateMetrics(frameTimes)` (frame-time version of
benchmark.js).  `sqrtF` is the interpretation of `Math.sqrt`, applied
exactly once to the population variance. -/
def calculateMetrics (sqrtF : ℚ → ℚ) (frameTimes : List ℚ) : Metrics :=
  if frameTimes.length < 10 then zeroMetrics
  else
    let filtered := statsSamples frameTimes
    let outliersExcluded := frameTimes.length - (iqrFiltered frameTimes).length
    let avgFrameTime := mean filtered
    let avgFps := jsRound (1000 / avgFrameTime)
    let fpsValues := filtered.map (fun ft => 1000 / ft)
    let minFps := jsRound (jsMin fpsValues)
    let maxFps := jsRound (jsMax fpsValues)
    let variance := (filtered.foldl (fun acc t => acc + (t - avgFrameTime)^2) 0) / (filtered.length : ℚ)
    let jitter := sqrtF variance
    let medianFps := jsRound (1000 / jsMedian filtered)
    { avgFps := avgFps, minFps := minFps, maxFps := maxFps
      medianFps := some medianFps
      avgFrameTime := jsRound2 avgFrameTime
      jitter := jsRound2 jitter
      outliersExcluded := outliersExcluded }

/-!
Embedding of the measurement tick of `runMeasuredAnimation` (benchmark.js,
frame-time version).  One invocation of the inner `animate()` callback at
wall time `now` updates the loop's mutable variables in source order:
frame-gap tracking, throttle counting, the warmup-phase check, then sample
recording.
-/

/-- The `THROTTLE_THRESHOLD_MS` constant (100 ms frame gap). -/
def THROTTLE_THRESHOLD_MS : ℚ := 100

/-- Mutable variables of the `runMeasuredAnimation` closure that one tick
reads and writes. -/
structure TickState where
  isWarmup : Bool
  lastFrameTime : ℚ
  maxFrameGap : ℚ
  throttleWarnings : ℕ
  frameTimes : List ℚ
deriving DecidableEq

/-- One execution of the `animate()` callback body at wall time `now`
(excluding the abort check, the backend update and the rescheduling),
with statements in source order.  Note that the throttle diagnostics are
guarded by the pre-tick `isWarmup` flag, while sample recording is
guarded by the flag after the warmup check has possibly cleared it. -/
def animateTick (warmupMs startTime : ℚ) (s : TickState) (now : ℚ) : TickState :=
  let frameTime := now - s.lastFrameTime
  let maxFrameGap := if s.isWarmup = false ∧ frameTime > s.maxFrameGap then frameTime else s.maxFrameGap
  let throttleWarnings :=
    if s.isWarmup = false ∧ frameTime > THROTTLE_THRESHOLD_MS then s.throttleWarnings + 1
    else s.throttleWarnings
  let isWarmup := if s.isWarmup = true ∧ now - startTime ≥ warmupMs then false else s.isWarmup
  let frameTimes :=
    if isWarmup = false ∧ frameTime > 1 ∧ frameTime < 200 then s.frameTimes ++ [frameTime]
    else s.frameTimes
  { isWarmup := isWarmup, lastFrameTime := now, maxFrameGap := maxFrameGap
    throttleWarnings := throttleWarnings, frameTimes := frameTimes }

/-!
Embedding of `calculateCombinedStats` (benchmark.js, frame-time version).
-/

/-- The combined cross-iteration record stored in `results[lib][count].combined`. -/
structure Combined where
  medianFps : ℚ
  avgFps : ℚ
  minFps : ℚ
  maxFps : ℚ
  avgFrameTime : ℚ
  jitter : ℚ
  fpsIqr : ℚ
  totalOutliersExcluded : ℕ
  iterationDetails : List Metrics
deriving DecidableEq

/-- The source expression `i.medianFps || i.avgFps`: fall back to
`avgFps` when `medianFps` is absent (`undefined`) or zero (JS `||`
treats 0 as falsy). -/
def medianFpsOrAvg (m : Metrics) : ℚ :=
  match m.medianFps with
  | none => m.avgFps
  | some v => if v = 0 then m.avgFps else v

/-- Body of the per-configuration loop of `calculateCombinedStats`:
reduce the list of per-iteration metrics of one configuration to its
combined record; `none` models the `continue` on an empty iteration
list. -/
def combineIterations (iterations : List Metrics) : Option Combined :=
  if iterations.length = 0 then none
  else
    let allFps := iterations.map (fun i => i.avgFps)
    let allMedianFps := iterations.map medianFpsOrAvg
    let allFrameTimes := iterations.map (fun i => i.avgFrameTime)
    let allJitter := iterations.map (fun i => i.jitter)
    let allMinFps := iterations.map (fun i => i.minFps)
    let allMaxFps := iterations.map (fun i => i.maxFps)
    let sortedFps := jsSortAsc allMedianFps
    let sortedJitter := jsSortAsc allJitter
    let medianIndex := sortedFps.length / 2
    let fpsIqr :=
      if sortedFps.length ≥ 4 then
        sortedFps.getD (q3Index sortedFps.length) 0 - sortedFps.getD (q1Index sortedFps.length) 0
      else if sortedFps.length ≥ 2 then
        sortedFps.getD (sortedFps.length - 1) 0 - sortedFps.getD 0 0
      else 0
    some
      { medianFps := sortedFps.getD medianIndex 0
        avgFps := jsRound (listSum allFps / (allFps.length : ℚ))
        minFps := jsMin allMinFps
        maxFps := jsMax allMaxFps
        avgFrameTime := jsRound2 (listSum allFrameTimes / (allFrameTimes.length : ℚ))
        jitter := sortedJitter.getD medianIndex 0
        fpsIqr := fpsIqr
        totalOutliersExcluded := iterations.foldl (fun sum i => sum + i.outliersExcluded) 0
        iterationDetails := iterations }

/-!
Embedding of the scheduler: configuration matrix, `generateTestOrder`
(Fisher–Yates shuffle driven by the ambient `Math.random()` stream, made
explicit), and the per-run schedule of `runBenchmark`.
-/

/-- The `LIBRARIES` constant. -/
def LIBRARIES : List String := ["leaflet", "openlayers", "maplibre", "deckgl"]

/-- The `POINT_COUNTS` constant. -/
def POINT_COUNTS : List ℕ := [500, 1000, 5000, 10000]

/-- The `ITERATIONS` constant. -/
def ITERATIONS : ℕ := 3

/-- The `tests` array of `generateTestOrder` before shuffling: the full
backend × size cross product in nested-loop order. -/
def testMatrix : List (String × ℕ) :=
  LIBRARIES.flatMap (fun lib => POINT_COUNTS.map (fun count => (lib, count)))

/-- The destructuring swap `[tests[i], tests[j]] = [tests[j], tests[i]]`;
the out-of-range fallback branch is unreachable at the call site since
both indices are below the list length. -/
def swapIdx {α : Type} (l : List α) (i j : ℕ) : List α :=
  match l[i]?, l[j]? with
  | some a, some b => (l.set i b).set j a
  | _, _ => l

/-- Descending shuffle loop `for (let i = length-1; i > 0; i--)`: process
index `i`, swapping with `j = Math.floor(Math.random() * (i + 1))`.  The
draw for index `i` is `rng i`, reduced modulo `i + 1` exactly as the
floored product of a unit-interval draw lands in `0 .. i`. -/
def fyLoop {α : Type} (rng : ℕ → ℕ) (l : List α) : ℕ → List α
  | 0 => l
  | i + 1 => fyLoop rng (swapIdx l (i + 1) (rng (i + 1) % (i + 2))) i

/-- Embedding of `generateTestOrder()`: Fisher–Yates shuffle of the full
cross product, driven by the ambient random stream `rng`. -/
def generateTestOrder (rng : ℕ → ℕ) : List (String × ℕ) :=
  fyLoop rng testMatrix (testMatrix.length - 1)

/-- The sequence of `(lib, count)` tests executed by one run of
`runBenchmark`: for each iteration a freshly shuffled order
(`rng it` is the random stream consumed by iteration `it`). -/
def scheduleTests (rng : ℕ → ℕ → ℕ) : List (String × ℕ) :=
  (List.range ITERATIONS).flatMap (fun it => generateTestOrder (rng it))

/-- The executed `(lib, count, iteration)` triples of one run, in order. -/
def benchmarkSchedule (rng : ℕ → ℕ → ℕ) : List (String × ℕ × ℕ) :=
  (List.range ITERATIONS).flatMap
    (fun it => (generateTestOrder (rng it)).map (fun tc => (tc.1, tc.2, it)))

/-- The reference multiset of triples the run must visit: every
configuration of the matrix once per iteration. -/
def allScheduledTriples : List (String × ℕ × ℕ) :=
  (List.range ITERATIONS).flatMap (fun it => testMatrix.map (fun tc => (tc.1, tc.2, it)))

/-!
Embedding of the results store and of the `runBenchmark` /
`cancelBenchmark` lifecycle.  The promise returned by `runBenchmark` is
modelled as an `Option String × ResultsStore` pair from the loop (first
error message if any, store so far) and classified by the `try/catch` of
the source; the environment supplies, per sequential test index, whether
the abort signal is observed at the pre-test check and what the test
itself does (resolve with metrics, reject through the in-loop abort
check, or throw a backend fault).
-/

/-- One `results[lib][count]` cell. -/
structure ConfigResult where
  iterations : List Metrics
  combined : Option Combined
deriving DecidableEq

/-- The results store, keyed by configuration in matrix order. -/
def ResultsStore : Type := List ((String × ℕ) × ConfigResult)

/-- Embedding of `createEmptyResults()`. -/
def createEmptyResults : ResultsStore :=
  testMatrix.map (fun tc => (tc, { iterations := [], combined := none }))

/-- Embedding of `benchmarkResults[lib][count].iterations.push(metrics)`. -/
def pushIteration (rs : ResultsStore) (key : String × ℕ) (m : Metrics) : ResultsStore :=
  rs.map (fun kv =>
    if kv.1 = key then (kv.1, { kv.2 with iterations := kv.2.iterations ++ [m] }) else kv)

/-- Embedding of `calculateCombinedStats(results)`: fill in the
`combined` field of every configuration cell. -/
def calculateCombinedStats (rs : ResultsStore) : ResultsStore :=
  rs.map (fun kv => (kv.1, { kv.2 with combined := combineIterations kv.2.iterations }))

/-- The error message thrown on cancellation, `new Error('Benchmark cancelled')`. -/
def benchmarkCancelledMsg : String := "Benchmark cancelled"

/-- What one scheduled test does once the pre-test abort check has
passed: resolve with metrics, reject via the in-tick abort check of
`runMeasuredAnimation` (which throws the cancellation message), or throw
some other exception (e.g. a backend adapter fault). -/
inductive TestOutcome where
  | ok (m : Metrics)
  | thrown (msg : String)

/-- The `for (const ... of testOrder)` loop of `runBenchmark` over the
full schedule: at each sequential test index the abort signal is checked
first (throwing the cancellation message), then the test runs.  Returns
the first thrown message, if any, together with the store accumulated so
far. -/
def runSchedule (abortAt : ℕ → Bool) (outcome : ℕ → TestOutcome) :
    List (String × ℕ) → ℕ → ResultsStore → Option String × ResultsStore
  | [], _, rs => (none, rs)
  | tc :: rest, k, rs =>
    if abortAt k then (some benchmarkCancelledMsg, rs)
    else
      match outcome k with
      | .ok m => runSchedule abortAt outcome rest (k + 1) (pushIteration rs tc m)
      | .thrown msg => (some msg, rs)

/-- Module-level mutable state of benchmark.js. -/
structure BenchModule where
  benchmarkState : String
  benchmarkResults : ResultsStore
  abortController : Option Bool

/-- Entry of `runBenchmark`: set state to running, install a fresh abort
controller, reset the results store to the empty structure.  The previous
module state is entirely overwritten. -/
def startBenchmark (_prev : BenchModule) : BenchModule :=
  { benchmarkState := "running"
    benchmarkResults := createEmptyResults
    abortController := some false }

/-- Completion of a run from the loop result: on success fill in the
combined statistics and resolve with the full store; on a thrown message
apply the `try/catch` classification (`cancelled` exactly when the caught
message is the cancellation tag, `error` otherwise) and reject. -/
def finishBenchmark (s1 : BenchModule) :
    Option String × ResultsStore → BenchModule × Except String ResultsStore
  | (none, rs) =>
    ({ s1 with benchmarkState := "complete", benchmarkResults := calculateCombinedStats rs },
     .ok (calculateCombinedStats rs))
  | (some msg, rs) =>
    ({ s1 with
        benchmarkState := if msg = benchmarkCancelledMsg then "cancelled" else "error"
        benchmarkResults := rs },
     .error msg)

/-- Embedding of one full `runBenchmark` run: entry, the scheduled loop,
then `finishBenchmark`.  Returns the final module state and the settled
promise (`Except.error` models rejection). -/
def runBenchmarkModel (abortAt : ℕ → Bool) (outcome : ℕ → TestOutcome)
    (rng : ℕ → ℕ → ℕ) (prev : BenchModule) : BenchModule × Except String ResultsStore :=
  finishBenchmark (startBenchmark prev)
    (runSchedule abortAt outcome (scheduleTests rng) 0 (startBenchmark prev).benchmarkResults)

/-- Embedding of `cancelBenchmark()`: abort the active controller when
one exists, otherwise do nothing. -/
def cancelBenchmark : Option Bool → Option Bool
  | none => none
  | some _ => some true

/-!
Embedding of the animation buffer cache (`getAnimationBuffer` /
`updateAnimatedPoints` of benchmark.js).  The module-level
`animationBuffers` map is threaded explicitly; `Math.cos` and `Math.sin`
are abstract parameters.
-/

/-- One cached animation buffer: the copied base coordinates, the shared
per-feature properties, and the reusable per-frame coordinate scratch. -/
structure AnimBuffer where
  baseCoords : List (ℚ × ℚ)
  featProps : List PointProps
  animCoords : List (ℚ × ℚ)
deriving DecidableEq

/-- The buffer freshly built from a base point set: base coordinates
copied, properties shared, scratch coordinates initialised to the base. -/
def mkAnimBuffer (basePoints : List Feature) : AnimBuffer :=
  { baseCoords := basePoints.map (fun f => f.coords)
    featProps := basePoints.map (fun f => f.props)
    animCoords := basePoints.map (fun f => f.coords) }

/-- Embedding of `getAnimationBuffer(basePoints)`: look the buffer up by
feature count, creating and caching it on a miss. -/
def getAnimationBuffer (cache : List (ℕ × AnimBuffer)) (basePoints : List Feature) :
    List (ℕ × AnimBuffer) × AnimBuffer :=
  match cache.lookup basePoints.length with
  | some buf => (cache, buf)
  | none =>
    let buf := mkAnimBuffer basePoints
    (cache ++ [(basePoints.length, buf)], buf)

/-- The animated coordinate of entity `i` at time `elapsed`: base
position displaced on a circle whose phase, speed and radius derive from
the entity index. -/
def animatedCoord (cosF sinF : ℚ → ℚ) (elapsed : ℚ) (i : ℕ) (base : ℚ × ℚ) : ℚ × ℚ :=
  let phase := (i : ℚ) * 0.1
  let speed := 0.5 + ((i % 5 : ℕ) : ℚ) * 0.2
  let radius := 0.002 + ((i % 10 : ℕ) : ℚ) * 0.0005
  (base.1 + cosF (elapsed * speed + phase) * radius,
   base.2 + sinF (elapsed * speed + phase) * radius)

/-- Embedding of `updateAnimatedPoints(basePoints, elapsed)`: fetch (or
create) the buffer for this point count, overwrite every scratch
coordinate from the cached base coordinate, and return the updated cache
together with the animated feature collection.  Only `animCoords` of the
addressed buffer changes; `baseCoords` is read-only. -/
def updateAnimatedPoints (cosF sinF : ℚ → ℚ) (cache : List (ℕ × AnimBuffer))
    (basePoints : List Feature) (elapsed : ℚ) : List (ℕ × AnimBuffer) × List Feature :=
  let cacheAndBuf := getAnimationBuffer cache basePoints
  let buf := cacheAndBuf.2
  let newCoords :=
    (List.range buf.animCoords.length).map
      (fun i => animatedCoord cosF sinF elapsed i (buf.baseCoords.getD i (0, 0)))
  let buf2 : AnimBuffer := { buf with animCoords := newCoords }
  let cache2 :=
    cacheAndBuf.1.map (fun kv => if kv.1 = basePoints.length then (kv.1, buf2) else kv)
  (cache2, List.zipWith (fun p c => Feature.mk p c) buf2.featProps buf2.animCoords)

/-- Well-formedness of a cached animation buffer with respect to the
workload it serves: the base coordinates and properties are those of the
workload, and the per-frame scratch has one slot per entity.  The scratch
contents are unconstrained — after the first frame they hold the
previous tick's animated coordinates, which is the reuse the buffer
exists for. -/
def bufferFrom (basePoints : List Feature) (buf : AnimBuffer) : Prop :=
  buf.baseCoords = basePoints.map (fun f => f.coords) ∧
  buf.featProps = basePoints.map (fun f => f.props) ∧
  buf.animCoords.length = basePoints.length

/-!
Helper lemmas shared by the claim theorems.
-/

theorem filter_length_partition {α : Type} (p : α → Bool) (l : List α) :
    (l.filter p).length + (l.filter (fun a => !(p a))).length = l.length := by
  induction l with
  | nil => rfl
  | cons x t ih =>
    cases hp : p x <;> simp [List.filter_cons, hp] <;> omega

/-!
Claim theorems.
-/

/-- C1: the spec claims `getPoints(count, seed)` is a deterministic
function of `(count, seed)` driven by a seeded pseudo-random sequence.
The source `getPoints` declares no seed parameter and draws from the
ambient `Math.random()`: the workload produced for identical
`(count, seed)` arguments differs between two ambient random streams, so
two calls with identical arguments generally disagree.  Evaluated here at
count 1, seed `BENCHMARK_SEED`, with the ambient stream constantly 0
versus constantly one half. -/
theorem getPoints_ignores_seed :
    benchmarkPointData 1 BENCHMARK_SEED (fun _ => 0) ≠
      benchmarkPointData 1 BENCHMARK_SEED (fun _ => 1/2) := by
  intro h
  have h1 := congrArg (fun l => ((l.headD ⟨⟨0, "", 0, ""⟩, (0, 0)⟩).coords).1) h
  simp only [benchmarkPointData, getPoints, List.range_succ, List.range_zero,
    List.nil_append, List.map_cons, List.map_nil, List.headD_cons] at h1
  simp only [randomInRange, NYC_LNG, SPREAD] at h1
  norm_num at h1

/-- C4: on fewer than 10 raw samples, `calculateMetrics` returns the
degenerate zero-metric record (all displayed metrics zero, no median
field) instead of computing statistics. -/
theorem calculateMetrics_degenerate (sqrtF : ℚ → ℚ) (frameTimes : List ℚ)
    (h : frameTimes.length < 10) :
    calculateMetrics sqrtF frameTimes =
      { avgFps := 0, minFps := 0, maxFps := 0, medianFps := none
        avgFrameTime := 0, jitter := 0, outliersExcluded := 0 } := by
  simp [calculateMetrics, h, zeroMetrics]

/-- Witness for C4 at a concrete 3-sample list. -/
theorem calculateMetrics_degenerate_witness :
    ([(16 : ℚ), 17, 16]).length < 10 ∧
      calculateMetrics (fun q => q) [(16 : ℚ), 17, 16] =
        { avgFps := 0, minFps := 0, maxFps := 0, medianFps := none
          avgFrameTime := 0, jitter := 0, outliersExcluded := 0 } :=
  ⟨by decide, calculateMetrics_degenerate (fun q => q) [(16 : ℚ), 17, 16] (by decide)⟩

/-- C3: with at least 10 raw samples, if the IQR filter would leave fewer
than 10 samples, the filter is discarded and the statistics are computed
on exactly the full unfiltered sample set — the filtered remnant is
replaced, not appended to. -/
theorem calculateMetrics_fallback (sqrtF : ℚ → ℚ) (frameTimes : List ℚ)
    (h1 : 10 ≤ frameTimes.length) (h2 : (iqrFiltered frameTimes).length < 10) :
    statsSamples frameTimes = frameTimes ∧
      (calculateMetrics sqrtF frameTimes).avgFrameTime = jsRound2 (mean frameTimes) ∧
      (calculateMetrics sqrtF frameTimes).medianFps
        = some (jsRound (1000 / jsMedian frameTimes)) ∧
      (calculateMetrics sqrtF frameTimes).outliersExcluded
        = frameTimes.length - (iqrFiltered frameTimes).length := by
  have hnot : ¬ frameTimes.length < 10 := Nat.not_lt.mpr h1
  have hs : statsSamples frameTimes = frameTimes := by simp [statsSamples, h2]
  refine ⟨hs, ?_, ?_, ?_⟩ <;> simp [calculateMetrics, hnot, hs, mean]

/-- Witness for C3: ten samples whose inter-quartile range collapses to a
point, so the filter keeps only 6 of them and the fallback replaces the
remnant by the full sample set. -/
theorem calculateMetrics_fallback_witness :
    10 ≤ ([(0 : ℚ), 0, 5, 5, 5, 5, 5, 5, 900, 900]).length ∧
      (iqrFiltered [(0 : ℚ), 0, 5, 5, 5, 5, 5, 5, 900, 900]).length < 10 ∧
      statsSamples [(0 : ℚ), 0, 5, 5, 5, 5, 5, 5, 900, 900]
        = [(0 : ℚ), 0, 5, 5, 5, 5, 5, 5, 900, 900] :=
  ⟨by decide,
   by norm_num [iqrFiltered, iqrLowerBound, iqrUpperBound, jsSortAsc, q1Index, q3Index,
      List.insertionSort, List.orderedInsert, List.filter, List.getD],
   (calculateMetrics_fallback (fun q => q) [(0 : ℚ), 0, 5, 5, 5, 5, 5, 5, 900, 900]
      (by decide)
      (by norm_num [iqrFiltered, iqrLowerBound, iqrUpperBound, jsSortAsc, q1Index, q3Index,
        List.insertionSort, List.orderedInsert, List.filter, List.getD])).1⟩

/-- C10: with at least 10 raw samples, the reported `outliersExcluded` is
always the count of raw samples outside the IQR bounds, fixed before the
fallback check, and is not reset when the fallback replaces the filtered
set by the unfiltered one. -/
theorem outliersExcluded_prefallback (sqrtF : ℚ → ℚ) (frameTimes : List ℚ)
    (h : 10 ≤ frameTimes.length) :
    (calculateMetrics sqrtF frameTimes).outliersExcluded
        = frameTimes.length - (iqrFiltered frameTimes).length ∧
      (calculateMetrics sqrtF frameTimes).outliersExcluded
        = (frameTimes.filter
            (fun t => !decide (iqrLowerBound frameTimes ≤ t ∧ t ≤ iqrUpperBound frameTimes))).length := by
  have hnot : ¬ frameTimes.length < 10 := Nat.not_lt.mpr h
  have hpart := filter_length_partition
    (fun t => decide (iqrLowerBound frameTimes ≤ t ∧ t ≤ iqrUpperBound frameTimes)) frameTimes
  constructor
  · simp [calculateMetrics, hnot]
  · simp only [calculateMetrics, hnot, if_false, iqrFiltered] at *
    omega

/-- Witness for C10: the fallback fires (only 6 of 10 samples survive the
filter) yet the result still reports the 4 pre-fallback outliers. -/
theorem outliersExcluded_prefallback_witness :
    10 ≤ ([(0 : ℚ), 0, 7, 7, 7, 7, 7, 7, 901, 901]).length ∧
      (calculateMetrics (fun q => q) [(0 : ℚ), 0, 7, 7, 7, 7, 7, 7, 901, 901]).outliersExcluded
        = ([(0 : ℚ), 0, 7, 7, 7, 7, 7, 7, 901, 901]).length
            - (iqrFiltered [(0 : ℚ), 0, 7, 7, 7, 7, 7, 7, 901, 901]).length ∧
      (iqrFiltered [(0 : ℚ), 0, 7, 7, 7, 7, 7, 7, 901, 901]).length = 6 :=
  ⟨by decide,
   (outliersExcluded_prefallback (fun q => q) [(0 : ℚ), 0, 7, 7, 7, 7, 7, 7, 901, 901]
      (by decide)).1,
   by norm_num [iqrFiltered, iqrLowerBound, iqrUpperBound, jsSortAsc, q1Index, q3Index,
      List.insertionSort, List.orderedInsert, List.filter, List.getD]⟩

/-- C2 counterexample: a warmup-phase tick whose inter-tick interval
(150 ms) exceeds the 100 ms throttle threshold does NOT increment
`throttleWarnings` — the counter is guarded by the pre-tick warmup flag,
so warmup gaps are excluded from the throttle diagnostics, contrary to
the claim that they still count. -/
theorem warmup_throttle_not_counted :
    (⟨true, 0, 0, 0, []⟩ : TickState).isWarmup = true ∧
      (150 : ℚ) - (⟨true, 0, 0, 0, []⟩ : TickState).lastFrameTime > THROTTLE_THRESHOLD_MS ∧
      ¬ ((animateTick 2000 0 (⟨true, 0, 0, 0, []⟩ : TickState) 150).throttleWarnings
          = (⟨true, 0, 0, 0, []⟩ : TickState).throttleWarnings + 1) := by
  refine ⟨rfl, by norm_num [THROTTLE_THRESHOLD_MS], ?_⟩
  norm_num [animateTick, THROTTLE_THRESHOLD_MS]

/-- C2 amended: warmup-phase ticks are excluded from the throttle
diagnostics as well as from the statistics — `throttleWarnings` is
incremented exactly on ticks whose pre-tick warmup flag is already
cleared and whose interval exceeds the 100 ms threshold. -/
theorem throttleWarnings_measurement_only (warmupMs startTime : ℚ) (s : TickState) (now : ℚ) :
    (s.isWarmup = true →
        (animateTick warmupMs startTime s now).throttleWarnings = s.throttleWarnings) ∧
      (s.isWarmup = false → now - s.lastFrameTime > THROTTLE_THRESHOLD_MS →
        (animateTick warmupMs startTime s now).throttleWarnings = s.throttleWarnings + 1) ∧
      (s.isWarmup = false → ¬ (now - s.lastFrameTime > THROTTLE_THRESHOLD_MS) →
        (animateTick warmupMs startTime s now).throttleWarnings = s.throttleWarnings) := by
  refine ⟨fun hw => ?_, fun hw hgt => ?_, fun hw hle => ?_⟩
  · simp [animateTick, hw]
  · simp [animateTick, hw, hgt]
  · simp [animateTick, hw, hle]

/-- Witness for the amended C2: a measurement-phase tick with a 150 ms
gap increments the counter. -/
theorem throttleWarnings_measurement_only_witness :
    (⟨false, 0, 0, 0, []⟩ : TickState).isWarmup = false ∧
      (150 : ℚ) - (⟨false, 0, 0, 0, []⟩ : TickState).lastFrameTime > THROTTLE_THRESHOLD_MS ∧
      (animateTick 2000 0 (⟨false, 0, 0, 0, []⟩ : TickState) 150).throttleWarnings = 0 + 1 :=
  ⟨rfl, by norm_num [THROTTLE_THRESHOLD_MS],
   (throttleWarnings_measurement_only 2000 0 (⟨false, 0, 0, 0, []⟩ : TickState) 150).2.1
     rfl (by norm_num [THROTTLE_THRESHOLD_MS])⟩

/-- C7: a tick records its inter-tick interval as a statistics sample
exactly when the tick is past warmup (the warmup flag is already false,
or this very tick crosses the warmup boundary in wall time) and the
interval lies strictly between 1 ms and 200 ms; every other tick leaves
the sample list unchanged, so no warmup-phase interval is ever
recorded. -/
theorem sample_recording_rule (warmupMs startTime : ℚ) (s : TickState) (now : ℚ) :
    (animateTick warmupMs startTime s now).frameTimes =
      if (s.isWarmup = false ∨ now - startTime ≥ warmupMs) ∧
          1 < now - s.lastFrameTime ∧ now - s.lastFrameTime < 200
      then s.frameTimes ++ [now - s.lastFrameTime]
      else s.frameTimes := by
  cases hw : s.isWarmup <;>
    by_cases hb : now - startTime ≥ warmupMs <;>
      simp [animateTick, hw, hb, and_assoc]

/-- C6: three iterations of one configuration with per-iteration median
rates 58, 61 and 60 combine to a median rate of 60 (the middle of the
sorted medians) and a variability `fpsIqr` of 3 (the range, because the
iteration count 3 is below 4). -/
theorem combined_median_and_range (m1 m2 m3 : Metrics)
    (h1 : m1.medianFps = some 58) (h2 : m2.medianFps = some 61)
    (h3 : m3.medianFps = some 60) :
    ∃ c : Combined, combineIterations [m1, m2, m3] = some c ∧
      c.medianFps = 60 ∧ c.fpsIqr = 3 := by
  refine ⟨_, rfl, ?_, ?_⟩ <;>
    norm_num [combineIterations, medianFpsOrAvg, h1, h2, h3, jsSortAsc, q1Index, q3Index,
      List.insertionSort, List.orderedInsert, List.getD]

/-- Witness for C6 at concrete metrics records. -/
theorem combined_median_and_range_witness :
    ({ zeroMetrics with medianFps := some 58 } : Metrics).medianFps = some 58 ∧
      ({ zeroMetrics with medianFps := some 61 } : Metrics).medianFps = some 61 ∧
      ({ zeroMetrics with medianFps := some 60 } : Metrics).medianFps = some 60 ∧
      ∃ c : Combined,
        combineIterations
            [{ zeroMetrics with medianFps := some 58 },
             { zeroMetrics with medianFps := some 61 },
             { zeroMetrics with medianFps := some 60 }] = some c ∧
          c.medianFps = 60 ∧ c.fpsIqr = 3 :=
  ⟨rfl, rfl, rfl,
   combined_median_and_range
     { zeroMetrics with medianFps := some 58 }
     { zeroMetrics with medianFps := some 61 }
     { zeroMetrics with medianFps := some 60 } rfl rfl rfl⟩

theorem list_set_self {α : Type} :
    ∀ (l : List α) (n : ℕ) (a : α), l[n]? = some a → l.set n a = l := by
  intro l
  induction l with
  | nil => intro n a h; simp at h
  | cons x t ih =>
    intro n a h
    cases n with
    | zero =>
      rw [List.getElem?_cons_zero] at h
      rw [List.set_cons_zero, Option.some.inj h]
    | succ n =>
      rw [List.getElem?_cons_succ] at h
      rw [List.set_cons_succ, ih n a h]

theorem perm_swap_middle {α : Type} (ys zs : List α) (a b : α) :
    (a :: (ys ++ b :: zs)).Perm (b :: (ys ++ a :: zs)) :=
  ((List.Perm.cons a List.perm_middle).trans
    (List.Perm.swap b a (ys ++ zs))).trans
    (List.Perm.cons b List.perm_middle.symm)

theorem set_set_perm {α : Type} :
    ∀ (l : List α) (i j : ℕ) (a b : α), i < j → l[i]? = some a → l[j]? = some b →
      ((l.set i b).set j a).Perm l := by
  intro l
  induction l with
  | nil => intro i j a b _ hi _; simp at hi
  | cons x t ih =>
    intro i j a b hij hi hj
    cases i with
    | zero =>
      cases j with
      | zero => exact absurd hij (lt_irrefl 0)
      | succ j =>
        rw [List.getElem?_cons_zero] at hi
        have hxa : x = a := Option.some.inj hi
        subst hxa
        rw [List.getElem?_cons_succ] at hj
        obtain ⟨hjlen, _⟩ := List.getElem?_eq_some.mp hj
        rw [List.set_cons_zero, List.set_cons_succ]
        have ht : t = t.take j ++ b :: t.drop (j + 1) := by
          conv_lhs => rw [← list_set_self t j b hj]
          exact List.set_eq_take_cons_drop b hjlen
        rw [List.set_eq_take_cons_drop x hjlen]
        conv_rhs => rw [ht]
        exact perm_swap_middle (t.take j) (t.drop (j + 1)) b x
    | succ i =>
      cases j with
      | zero => exact absurd hij (by omega)
      | succ j =>
        rw [List.getElem?_cons_succ] at hi hj
        rw [List.set_cons_succ, List.set_cons_succ]
        exact List.Perm.cons x (ih i j a b (by omega) hi hj)

theorem swapIdx_perm {α : Type} (l : List α) (i j : ℕ) : (swapIdx l i j).Perm l := by
  rcases hi : l[i]? with _ | a <;> rcases hj : l[j]? with _ | b <;>
    simp only [swapIdx, hi, hj] <;> try exact List.Perm.refl l
  rcases lt_trichotomy i j with hlt | heq | hgt
  · exact set_set_perm l i j a b hlt hi hj
  · subst heq
    have hab : a = b := Option.some.inj (hi ▸ hj)
    subst hab
    rw [List.set_set, list_set_self l i a hi]
  · have hcomm : (l.set i b).set j a = (l.set j a).set i b :=
      List.set_comm b a l (by omega)
    rw [hcomm]
    exact set_set_perm l j i b a hgt hj hi

theorem fyLoop_perm {α : Type} (rng : ℕ → ℕ) :
    ∀ (i : ℕ) (l : List α), (fyLoop rng l i).Perm l := by
  intro i
  induction i with
  | zero => intro l; exact List.Perm.refl l
  | succ i ih =>
    intro l
    exact (ih _).trans (swapIdx_perm l (i + 1) (rng (i + 1) % (i + 2)))

theorem generateTestOrder_perm (rng : ℕ → ℕ) :
    (generateTestOrder rng).Perm testMatrix :=
  fyLoop_perm rng (testMatrix.length - 1) testMatrix

theorem benchmarkSchedule_perm (rng : ℕ → ℕ → ℕ) :
    (benchmarkSchedule rng).Perm allScheduledTriples := by
  have h3 : List.range ITERATIONS = [0, 1, 2] := rfl
  simp only [benchmarkSchedule, allScheduledTriples, h3, List.flatMap_cons,
    List.flatMap_nil, List.append_nil]
  exact List.Perm.append (List.Perm.map _ (generateTestOrder_perm (rng 0)))
    (List.Perm.append (List.Perm.map _ (generateTestOrder_perm (rng 1)))
      (List.Perm.map _ (generateTestOrder_perm (rng 2))))

/-- C5: for every ambient random stream, `generateTestOrder` returns a
permutation of the duplicate-free 16-element backend × size cross
product, and the full run schedule — one independent shuffle per
iteration — is a permutation of the duplicate-free 48-element set of
`(backend, size, iteration)` triples, visiting each exactly once with no
duplicates or omissions. -/
theorem testOrder_coverage :
    testMatrix.Nodup ∧ testMatrix.length = 16 ∧ allScheduledTriples.Nodup ∧
      (∀ rng : ℕ → ℕ, (generateTestOrder rng).Perm testMatrix) ∧
      (∀ rng : ℕ → ℕ → ℕ, (benchmarkSchedule rng).Perm allScheduledTriples ∧
        (benchmarkSchedule rng).length = 48) := by
  refine ⟨by decide, by decide, by decide, generateTestOrder_perm, fun rng => ⟨benchmarkSchedule_perm rng, ?_⟩⟩
  rw [(benchmarkSchedule_perm rng).length_eq]
  decide

/-- C8: per run, the benchmark state moves one-directionally from
`running` (set on entry, together with a reset of the results store to
the empty structure and a fresh cancellation controller) to exactly one
of `complete` (promise resolves with the full results store),
`cancelled` (promise rejects carrying the cancellation tag) or `error`
(promise rejects with any other message); and `cancelBenchmark` with no
active controller is a no-op. -/
theorem runBenchmark_state_machine (abortAt : ℕ → Bool) (outcome : ℕ → TestOutcome)
    (rng : ℕ → ℕ → ℕ) (prev : BenchModule) :
    ((startBenchmark prev).benchmarkState = "running" ∧
        (startBenchmark prev).benchmarkResults = createEmptyResults) ∧
      ((runBenchmarkModel abortAt outcome rng prev).1.benchmarkState = "complete" ∨
        (runBenchmarkModel abortAt outcome rng prev).1.benchmarkState = "cancelled" ∨
        (runBenchmarkModel abortAt outcome rng prev).1.benchmarkState = "error") ∧
      ((runBenchmarkModel abortAt outcome rng prev).1.benchmarkState = "complete" ↔
        ∃ r, (runBenchmarkModel abortAt outcome rng prev).2 = .ok r) ∧
      ((runBenchmarkModel abortAt outcome rng prev).1.benchmarkState = "cancelled" ↔
        (runBenchmarkModel abortAt outcome rng prev).2 = .error benchmarkCancelledMsg) ∧
      ((runBenchmarkModel abortAt outcome rng prev).1.benchmarkState = "error" ↔
        ∃ msg, (runBenchmarkModel abortAt outcome rng prev).2 = .error msg ∧
          msg ≠ benchmarkCancelledMsg) ∧
      cancelBenchmark none = none := by
  refine ⟨⟨rfl, rfl⟩, ?_⟩
  have hmodel : runBenchmarkModel abortAt outcome rng prev
      = finishBenchmark (startBenchmark prev)
          (runSchedule abortAt outcome (scheduleTests rng) 0
            (startBenchmark prev).benchmarkResults) := rfl
  rcases hres : runSchedule abortAt outcome (scheduleTests rng) 0
      (startBenchmark prev).benchmarkResults with ⟨err, rs⟩
  rw [hres] at hmodel
  rcases err with _ | msg
  · rw [hmodel]
    simp [finishBenchmark, cancelBenchmark]
  · rw [hmodel]
    by_cases hmsg : msg = benchmarkCancelledMsg <;>
      simp [finishBenchmark, cancelBenchmark, hmsg]

theorem zipWith_mk_map_props :
    ∀ (ps : List PointProps) (cs : List (ℚ × ℚ)), ps.length = cs.length →
      (List.zipWith (fun p c => Feature.mk p c) ps cs).map Feature.props = ps := by
  intro ps
  induction ps with
  | nil => intro cs _; simp
  | cons p pt ih =>
    intro cs h
    cases cs with
    | nil => simp at h
    | cons c ct =>
      simp only [List.zipWith_cons_cons, List.map_cons, List.length_cons] at *
      exact congrArg (p :: ·) (ih ct (by omega))

theorem lookup_map_update (c : List (ℕ × AnimBuffer)) (k : ℕ) (b : AnimBuffer) :
    ∀ (n : ℕ), (c.map (fun kv => if kv.1 = k then (kv.1, b) else kv)).lookup n
      = (c.lookup n).map (fun b0 => if n = k then b else b0) := by
  induction c with
  | nil => intro n; rfl
  | cons kv t ih =>
    intro n
    rcases kv with ⟨m, bm⟩
    by_cases hnm : n = m
    · subst hnm
      by_cases hk : n = k <;> simp [List.lookup_cons, hk]
    · have hbeq : (n == m) = false := by simp [hnm]
      by_cases hmk : m = k
      · subst hmk
        simp [List.lookup_cons, hbeq, ih n]
      · simp [List.lookup_cons, hmk, hbeq, ih n]

theorem lookup_append_left {β : Type} (l1 l2 : List (ℕ × β)) (n : ℕ) (b : β)
    (h : l1.lookup n = some b) : (l1 ++ l2).lookup n = some b := by
  induction l1 with
  | nil => simp [List.lookup] at h
  | cons kv t ih =>
    rcases kv with ⟨m, bm⟩
    by_cases hnm : n = m
    · subst hnm
      simp [List.lookup_cons] at h ⊢
      exact h
    · have hbeq : (n == m) = false := by simp [hnm]
      simp [List.lookup_cons, hbeq] at h ⊢
      exact ih h

theorem lookup_append_none {β : Type} (l1 l2 : List (ℕ × β)) (n : ℕ)
    (h : l1.lookup n = none) : (l1 ++ l2).lookup n = l2.lookup n := by
  induction l1 with
  | nil => rfl
  | cons kv t ih =>
    rcases kv with ⟨m, bm⟩
    by_cases hnm : n = m
    · subst hnm
      simp only [List.lookup_cons, beq_self_eq_true] at h
      exact Option.noConfusion h
    · have hbeq : (n == m) = false := by simp [hnm]
      simp only [List.cons_append, List.lookup_cons, hbeq] at h ⊢
      exact ih h

/-- C9: animating a workload never changes its entity count or per-index
properties — only coordinates — and never writes to the cached base
coordinates of any buffer: every buffer in the cache keeps its
`baseCoords` across an update, with per-frame writes going only into the
reused `animCoords` scratch.  The hypothesis is the buffer
well-formedness invariant `bufferFrom`: the cache entry for this point
count, if present, carries this workload's base coordinates and
properties and a scratch slot per entity — its scratch contents are
arbitrary, covering the mutated buffers of every tick after the first.
The final conjunct shows the invariant is self-sustaining: it is
established by the first update after a cache miss and re-established by
every further update, so it holds at every per-frame invocation of a run
that starts from an empty or reset cache. -/
theorem updateAnimatedPoints_identity (cosF sinF : ℚ → ℚ)
    (cache : List (ℕ × AnimBuffer)) (basePoints : List Feature) (elapsed : ℚ)
    (h : cache.lookup basePoints.length = none ∨
      ∃ buf, cache.lookup basePoints.length = some buf ∧ bufferFrom basePoints buf) :
    (updateAnimatedPoints cosF sinF cache basePoints elapsed).2.length = basePoints.length ∧
      (updateAnimatedPoints cosF sinF cache basePoints elapsed).2.map Feature.props
        = basePoints.map Feature.props ∧
      (∀ n buf0, cache.lookup n = some buf0 →
        ∃ buf1, (updateAnimatedPoints cosF sinF cache basePoints elapsed).1.lookup n
            = some buf1 ∧ buf1.baseCoords = buf0.baseCoords) ∧
      (∃ buf1, (updateAnimatedPoints cosF sinF cache basePoints elapsed).1.lookup
          basePoints.length = some buf1 ∧ bufferFrom basePoints buf1) := by
  obtain ⟨cache1, buf, hga, hbf, hlkk, hlk⟩ : ∃ cache1 buf,
      getAnimationBuffer cache basePoints = (cache1, buf) ∧ bufferFrom basePoints buf ∧
        cache1.lookup basePoints.length = some buf ∧
        (∀ n buf0, cache.lookup n = some buf0 → cache1.lookup n = some buf0 ∧
          (n = basePoints.length → buf0.baseCoords = buf.baseCoords)) := by
    rcases h with hmiss | ⟨buf, hl, hbf⟩
    · refine ⟨cache ++ [(basePoints.length, mkAnimBuffer basePoints)],
        mkAnimBuffer basePoints, by simp [getAnimationBuffer, hmiss],
        ⟨rfl, rfl, by simp [mkAnimBuffer]⟩, ?_, ?_⟩
      · rw [lookup_append_none cache _ _ hmiss]
        simp [List.lookup_cons]
      · intro n buf0 hn
        refine ⟨lookup_append_left cache _ n buf0 hn, fun hk => ?_⟩
        rw [hk, hmiss] at hn
        exact Option.noConfusion hn
    · refine ⟨cache, buf, by simp [getAnimationBuffer, hl], hbf, hl,
        fun n buf0 hn => ⟨hn, fun hk => ?_⟩⟩
      rw [hk, hl] at hn
      exact congrArg AnimBuffer.baseCoords (Option.some.inj hn).symm
  have hsnd : (updateAnimatedPoints cosF sinF cache basePoints elapsed).2
      = List.zipWith (fun p c => Feature.mk p c) buf.featProps
          ((List.range buf.animCoords.length).map
            (fun i => animatedCoord cosF sinF elapsed i (buf.baseCoords.getD i (0, 0)))) := by
    rw [show (updateAnimatedPoints cosF sinF cache basePoints elapsed).2
        = List.zipWith (fun p c => Feature.mk p c)
            (getAnimationBuffer cache basePoints).2.featProps
            ((List.range (getAnimationBuffer cache basePoints).2.animCoords.length).map
              (fun i => animatedCoord cosF sinF elapsed i
                ((getAnimationBuffer cache basePoints).2.baseCoords.getD i (0, 0)))) from rfl,
      hga]
  have hfst : (updateAnimatedPoints cosF sinF cache basePoints elapsed).1
      = cache1.map (fun kv => if kv.1 = basePoints.length then (kv.1,
          { buf with animCoords := ((List.range buf.animCoords.length).map
              (fun i => animatedCoord cosF sinF elapsed i (buf.baseCoords.getD i (0, 0)))) })
        else kv) := by
    rw [show (updateAnimatedPoints cosF sinF cache basePoints elapsed).1
        = (getAnimationBuffer cache basePoints).1.map
            (fun kv => if kv.1 = basePoints.length then (kv.1,
              { (getAnimationBuffer cache basePoints).2 with
                  animCoords :=
                    (List.range (getAnimationBuffer cache basePoints).2.animCoords.length).map
                      (fun i => animatedCoord cosF sinF elapsed i
                        ((getAnimationBuffer cache basePoints).2.baseCoords.getD i (0, 0))) })
            else kv) from rfl,
      hga]
  refine ⟨?_, ?_, ?_, ?_⟩
  · rw [hsnd]
    simp [List.length_zipWith, hbf.2.1, hbf.2.2]
  · rw [hsnd, zipWith_mk_map_props _ _ (by simp [hbf.2.1, hbf.2.2])]
    exact hbf.2.1
  · intro n buf0 hn
    obtain ⟨hn1, hnk⟩ := hlk n buf0 hn
    rw [hfst, lookup_map_update, hn1]
    simp only [Option.map_some']
    by_cases hk : n = basePoints.length
    · exact ⟨_, rfl, by rw [if_pos hk]; exact (hnk hk).symm⟩
    · exact ⟨buf0, congrArg some (if_neg hk), rfl⟩
  · rw [hfst, lookup_map_update, hlkk]
    simp only [Option.map_some']
    refine ⟨_, rfl, ?_⟩
    simp only [if_true]
    exact ⟨hbf.1, hbf.2.1, by simp [hbf.2.2]⟩

/-- Witness for C9 in the steady state the claim is about: the cache
already holds the buffer for this one-point workload with its scratch
mutated by a previous tick (animCoords (501/500, 2) ≠ base (1, 2)), and
the update still preserves count, properties and the cached base
coordinates, re-establishing the invariant. -/
theorem updateAnimatedPoints_identity_witness :
    (([(1, (⟨[(1, 2)], [⟨0, "Point 0", 5, "park"⟩], [(501/500, 2)]⟩ : AnimBuffer))]).lookup
        ([(⟨⟨0, "Point 0", 5, "park"⟩, (1, 2)⟩ : Feature)]).length = none ∨
      ∃ buf, ([(1, (⟨[(1, 2)], [⟨0, "Point 0", 5, "park"⟩], [(501/500, 2)]⟩ : AnimBuffer))]).lookup
          ([(⟨⟨0, "Point 0", 5, "park"⟩, (1, 2)⟩ : Feature)]).length = some buf ∧
        bufferFrom [(⟨⟨0, "Point 0", 5, "park"⟩, (1, 2)⟩ : Feature)] buf) ∧
      ((updateAnimatedPoints (fun _ => 1) (fun _ => 0)
          [(1, (⟨[(1, 2)], [⟨0, "Point 0", 5, "park"⟩], [(501/500, 2)]⟩ : AnimBuffer))]
          [(⟨⟨0, "Point 0", 5, "park"⟩, (1, 2)⟩ : Feature)] 7).2.length
        = ([(⟨⟨0, "Point 0", 5, "park"⟩, (1, 2)⟩ : Feature)]).length ∧
        (updateAnimatedPoints (fun _ => 1) (fun _ => 0)
            [(1, (⟨[(1, 2)], [⟨0, "Point 0", 5, "park"⟩], [(501/500, 2)]⟩ : AnimBuffer))]
            [(⟨⟨0, "Point 0", 5, "park"⟩, (1, 2)⟩ : Feature)] 7).2.map Feature.props
          = ([(⟨⟨0, "Point 0", 5, "park"⟩, (1, 2)⟩ : Feature)]).map Feature.props ∧
        (∀ n buf0,
          ([(1, (⟨[(1, 2)], [⟨0, "Point 0", 5, "park"⟩], [(501/500, 2)]⟩ : AnimBuffer))]).lookup n
              = some buf0 →
          ∃ buf1, (updateAnimatedPoints (fun _ => 1) (fun _ => 0)
              [(1, (⟨[(1, 2)], [⟨0, "Point 0", 5, "park"⟩], [(501/500, 2)]⟩ : AnimBuffer))]
              [(⟨⟨0, "Point 0", 5, "park"⟩, (1, 2)⟩ : Feature)] 7).1.lookup n
              = some buf1 ∧ buf1.baseCoords = buf0.baseCoords) ∧
        (∃ buf1, (updateAnimatedPoints (fun _ => 1) (fun _ => 0)
            [(1, (⟨[(1, 2)], [⟨0, "Point 0", 5, "park"⟩], [(501/500, 2)]⟩ : AnimBuffer))]
            [(⟨⟨0, "Point 0", 5, "park"⟩, (1, 2)⟩ : Feature)] 7).1.lookup
            ([(⟨⟨0, "Point 0", 5, "park"⟩, (1, 2)⟩ : Feature)]).length = some buf1 ∧
          bufferFrom [(⟨⟨0, "Point 0", 5, "park"⟩, (1, 2)⟩ : Feature)] buf1)) :=
  ⟨Or.inr ⟨⟨[(1, 2)], [⟨0, "Point 0", 5, "park"⟩], [(501/500, 2)]⟩, rfl, rfl, rfl, rfl⟩,
   updateAnimatedPoints_identity (fun _ => 1) (fun _ => 0)
     [(1, (⟨[(1, 2)], [⟨0, "Point 0", 5, "park"⟩], [(501/500, 2)]⟩ : AnimBuffer))]
     [(⟨⟨0, "Point 0", 5, "park"⟩, (1, 2)⟩ : Feature)] 7
     (Or.inr ⟨⟨[(1, 2)], [⟨0, "Point 0", 5, "park"⟩], [(501/500, 2)]⟩, rfl, rfl, rfl, rfl⟩)⟩

end MapCompare
